import Mathlib

/-!
# Verification of the volume resource lifecycle manager

Shallow embedding of `cm/services/data/volume.py` (class `Volume`).

Modelling conventions:
* Remote cloud calls and OS-level effects are inputs: every value the code
  obtains from the cloud API or the operating system is a parameter (an
  "oracle"), and every remote call the code issues is recorded in an
  explicit `RemoteCall` trace where a claim needs it.
* Machine state mutated by a method is threaded explicitly through a
  `VState` record holding the Python object's fields.
* Python exceptions that can escape a method are modelled with
  `Except PyError`; exceptions the method catches never appear in its type.
* Wall-clock time (for `wait_for_status`) advances only at `time.sleep`,
  by exactly the slept amount; all other operations take zero time.
-/

namespace CloudMan

/-- Modelled from the spec: the `volume_status` module (`cm.services.data`)
is not under `src/`; per spec §3 it is the normalized status enum
NONE, CREATING, AVAILABLE, ATTACHING, ATTACHED, IN_USE, DELETING, whose
members are distinct non-empty provider strings (hence every status value
is truthy in Python boolean context). -/
inductive VolumeStatus where
  | NONE
  | CREATING
  | AVAILABLE
  | ATTACHING
  | ATTACHED
  | IN_USE
  | DELETING
deriving DecidableEq, Repr

/-- Modelled from the spec: the `service_states` module (`cm.services`) is
not under `src/`; states named per spec §4.4 and §6 (RUNNING,
SHUTTING_DOWN, ERROR, CONFIGURING), plus an UNSTARTED default. -/
inductive FsState where
  | UNSTARTED
  | RUNNING
  | SHUTTING_DOWN
  | ERROR
  | CONFIGURING
deriving DecidableEq, Repr

/-- Python errors that can escape the embedded methods. -/
inductive PyError where
  | attributeError
deriving DecidableEq, Repr

/-- Remote cloud-API calls issued by the embedded methods, in issue order. -/
inductive RemoteCall where
  | getSnapshot (id : String)
  | getSnapshotInfo (id : String)
  | createVolume
  | addTag (key : String)
  | deleteVolume (ok : Bool)
  | detachVolume
deriving DecidableEq, Repr

/-- The fields of the Python `Volume` object (and the parts of its owning
`Filesystem` collaborator that `volume.py` reads or writes), as a record.
`volume` is the bound remote resource (`self.volume`), carried as the
remote volume ID; `snapshot` carries `self.snapshot.volume_size` when a
boto snapshot object is held. -/
structure VState where
  volume : Option String
  device : Option String
  size : Nat
  fromSnapshotId : Option String
  fromArchive : Bool
  static : Bool
  snapshot : Option Nat
  fsState : FsState
  fsName : String
  hasGalaxyDataRole : Bool
  derivedSnapshots : List String
deriving DecidableEq, Repr

namespace Volume

/-- The `status` property (volume.py lines 246-274): with no bound remote
resource (`self.volume` falsy) the status is NONE without a remote call;
otherwise it is the value obtained by polling the provider (`poll`, the
result of the describe call after string mapping). The 2-second result
cache only affects which instant the polled value comes from, not its
range, so each read takes the poll as an oracle. -/
def status (s : VState) (poll : VolumeStatus) : VolumeStatus :=
  if s.volume = none then VolumeStatus.NONE else poll

/-- The provider-status mapping inside the `status` property (lines
257-267): take the first whitespace token of the provider string, map it
through `volume_status_map`, upgrade IN_USE to ATTACHED when the
attachment record reports "attached", and map unknown strings to NONE. -/
def mapProviderStatus (raw : String) (attachmentState : String) : VolumeStatus :=
  let tok := (raw.splitOn " ").headI
  let st : Option VolumeStatus :=
    if tok = "creating" then some VolumeStatus.CREATING
    else if tok = "available" then some VolumeStatus.AVAILABLE
    else if tok = "in-use" then some VolumeStatus.IN_USE
    else if tok = "attaching" then some VolumeStatus.ATTACHING
    else if tok = "attached" then some VolumeStatus.ATTACHED
    else if tok = "deleting" then some VolumeStatus.DELETING
    else none
  match st with
  | some VolumeStatus.IN_USE =>
      if attachmentState = "attached" then VolumeStatus.ATTACHED
      else VolumeStatus.IN_USE
  | some v => v
  | none => VolumeStatus.NONE

/-- `_increment_device_id` (lines 410-440). `base = device_id[0:-1]`,
`letter = device_id[-1]`; on cloud type `"ec2"` the base `/dev/xvd` is
replaced by `/dev/sd` and a letter below `'f'` is forced to `'e'`; the
result is `base + chr(ord(letter) + 1)`. Python raises IndexError on an
empty string (`device_id[-1]`), rendered here as `none`. -/
def incrementDeviceId (cloudType : String) (device_id : String) : Option String :=
  match device_id.data.getLast? with
  | none => none
  | some letter =>
    let base := device_id.data.dropLast
    let p :=
      if cloudType = "ec2" then
        ((if base = "/dev/xvd".data then "/dev/sd".data else base),
         (if letter < 'f' then 'e' else letter))
      else (base, letter)
    some (String.mk (p.1 ++ [Char.ofNat (p.2.toNat + 1)]))

/-- The letter produced for the incremented device on EC2, as a function of
the input's trailing letter (floor-at-'f' then advance by one). -/
def nextLetterEc2 (c : Char) : Char :=
  Char.ofNat ((if c < 'f' then 'e' else c).toNat + 1)

/-- Outcome of the new-device resolution step of `attach`. -/
inductive Resolution where
  | tryNext
  | accept (d : String)
  | abortAmbiguous
deriving DecidableEq, Repr

/-- The device-resolution segment of `attach` (lines 567-585). The
`frozenset`s returned by `_get_device_list` are carried as duplicate-free
lists of paths (a glob enumeration has no duplicates), so set difference
is `filter (· ∉ pre)`, `len` is `length` and `tuple(s)[0]` is `headI`.
Flow: `new_devices = post_devices - pre_devices`; zero new devices falls
through to the next candidate; then `elif attempted_device in
new_devices` accepts the attempted device; then more than one new device
aborts the whole attach (`return None`); otherwise the single new device
is accepted. -/
def resolveNewDevice (attempted : String) (preDevices postDevices : List String) :
    Resolution :=
  let newDevices := postDevices.filter (fun d => d ∉ preDevices)
  if newDevices.length = 0 then Resolution.tryNext
  else if attempted ∈ newDevices then Resolution.accept attempted
  else if 1 < newDevices.length then Resolution.abortAmbiguous
  else Resolution.accept newDevices.headI

/-- Oracles consumed by the polling loop of `wait_for_status`: the status
observed and the truthiness of `self.volume_id` at the k-th loop
iteration. -/
structure WaitEnv where
  statusAt : Nat → VolumeStatus
  hasVolumeAt : Nat → Bool

/-- The `while` loop of `wait_for_status` (lines 298-313). Time is
measured from `start_time`; after `k` executed sleeps of
`wait_time = timeout / 10` the clock reads `k * (timeout / 10)` (sleeps
are the only time passage, each advancing the clock by exactly its
argument). The loop guard is `wait_forever or time.time() <= end_time`,
i.e. `k * (timeout / 10) ≤ timeout`, written here multiplied through by
10 — `k * timeout ≤ 10 * timeout` — to keep the clock arithmetic in ℤ.
Inside, reaching the target returns True, a missing volume ID returns
False, otherwise the loop sleeps and repeats; falling out of the loop
returns False. The result carries the number of status checks performed;
`none` means the structural fuel ran out before the loop returned. -/
def waitLoop (target : VolumeStatus) (env : WaitEnv) (waitForever : Bool)
    (timeout : ℤ) : Nat → Nat → Option (Bool × Nat)
  | 0, _ => none
  | fuel + 1, k =>
    if waitForever ∨ (k : ℤ) * timeout ≤ 10 * timeout then
      if env.statusAt k = target then some (true, k + 1)
      else if env.hasVolumeAt k = false then some (false, k + 1)
      else waitLoop target env waitForever timeout fuel (k + 1)
    else some (false, k)

/-- `wait_for_status` (lines 276-316). `initialStatus` is the status read
by the guard before the loop (NONE returns False at once, with zero loop
checks). `timeout = -1` selects `wait_time = 5` seconds and an unbounded
loop (`checks = "infinite"`); otherwise `wait_time = timeout / 10` and
the loop runs while the clock has not passed
`end_time = start_time + timeout`. The sleep length only sets the real
spacing of the checks, never the control flow, so it is not a parameter
of `waitLoop`. The internal `checks = 10` counter is only decremented for
logging and never consulted by the loop. -/
def wait_for_status (env : WaitEnv) (initialStatus : VolumeStatus)
    (target : VolumeStatus) (timeout : ℤ) (fuel : Nat) : Option (Bool × Nat) :=
  if initialStatus = VolumeStatus.NONE then some (false, 0)
  else if timeout = -1 then waitLoop target env true timeout fuel 0
  else waitLoop target env false timeout fuel 0

/-- Oracles consumed by `create`: the remote responses of
`get_snapshot` (carried as the snapshot's `volume_size` when an object is
returned), `get_snapshot_info(...).get('volume_size')`, the provider poll
behind the `self.status` read, and `create_volume` (the created volume's
ID and its reported size, `None` on Euca sometimes). -/
structure CreateEnv where
  snapResp : Option Nat
  snapInfoSize : Option Nat
  statusPoll : VolumeStatus
  createResp : Option (String × Option Nat)

/-- The snapshot block of `create` (lines 333-343): when sourced from a
snapshot with no volume object bound, fetch the snapshot (`none` result =
abort, `return False`) and derive a missing size from
`get_snapshot_info(...).get('volume_size')`. -/
def createSnapshotStep (s : VState) (env : CreateEnv) :
    List RemoteCall × Option VState :=
  match s.fromSnapshotId, s.volume with
  | some snapId, none =>
    match env.snapResp with
    | none => ([RemoteCall.getSnapshot snapId], none)
    | some snapSize =>
      let s1 := { s with snapshot := some snapSize }
      if s1.size = 0 then
        ([RemoteCall.getSnapshot snapId, RemoteCall.getSnapshotInfo snapId],
         some { s1 with size := env.snapInfoSize.getD 0 })
      else ([RemoteCall.getSnapshot snapId], some s1)
  | _, _ => ([], some s)

/-- `create` (lines 318-380). Returns the calls issued in order, the
Python return value and the updated state. Flow: with size, snapshot ID
and archive all unset, fail with no call; then the snapshot block
(`createSnapshotStep`); if the status is NONE, issue `create_volume`
(fail when it returns nothing, else record the new volume and its size
via `int(self.volume.size or 0)`); otherwise fail (refuses to
double-provision); finally tag the volume with Name, bucketName,
filesystem and roles (`self.fs` is always a bound Filesystem object,
hence truthy). -/
def create (s : VState) (env : CreateEnv) : List RemoteCall × Bool × VState :=
  if s.size = 0 ∧ s.fromSnapshotId = none ∧ s.fromArchive = false then
    ([], false, s)
  else
    match createSnapshotStep s env with
    | (calls, none) => (calls, false, s)
    | (calls, some s1) =>
      if status s1 env.statusPoll = VolumeStatus.NONE then
        match env.createResp with
        | none => (calls ++ [RemoteCall.createVolume], false, s1)
        | some (vid, vsize) =>
          let s2 := { s1 with volume := some vid, size := vsize.getD 0 }
          (calls ++ [RemoteCall.createVolume, RemoteCall.addTag "Name",
                     RemoteCall.addTag "bucketName", RemoteCall.addTag "filesystem",
                     RemoteCall.addTag "roles"],
           true, s2)
      else (calls, false, s1)

/-- `delete` (lines 382-393). With a bound volume whose remote
`delete_volume` succeeds, the code sets `self.volume = None` and then
executes `self.volume_id = None`; `volume_id` is a getter-only
`@property` (lines 225-233), so that assignment raises `AttributeError`
before `return True` is reached. Any other path returns False. -/
def delete (s : VState) (deleteResp : Bool) :
    List RemoteCall × VState × Except PyError Bool :=
  if s.volume.isSome then
    if deleteResp then
      ([RemoteCall.deleteVolume true], { s with volume := none },
       Except.error PyError.attributeError)
    else ([RemoteCall.deleteVolume false], s, Except.ok false)
  else ([], s, Except.ok false)

/-- Outcome of the remote `self.volume.attach(...)` call inside
`_do_attach`: success, or an `EC2ResponseError` with the given error
code (the only exception class the provider interface raises there, and
the one the method catches). -/
inductive AttachCallOutcome where
  | ok
  | err (code : String)
deriving DecidableEq, Repr

/-- `_do_attach` (lines 487-522). Returns the updated state and the
Python return value: `none` renders the falsy `return False`, `some st`
renders `return self.status` (every status value is truthy, see
`VolumeStatus`). A `None` attach device returns False without a call. An
`EC2ResponseError` with code `InvalidVolume.ZoneMismatch` drives the
owning filesystem to ERROR and returns False; any other code just
returns False. No exception escapes: the remote call's only failure mode
is the `EC2ResponseError` this method catches. -/
def doAttach (s : VState) (attach_device : Option String)
    (call : AttachCallOutcome) (statusPoll : VolumeStatus) :
    VState × Option VolumeStatus :=
  match attach_device with
  | none => (s, none)
  | some _ =>
    match call with
    | AttachCallOutcome.ok => (s, some (status s statusPoll))
    | AttachCallOutcome.err code =>
      if code = "InvalidVolume.ZoneMismatch" then
        ({ s with fsState := FsState.ERROR }, none)
      else (s, none)

/-- Oracles consumed by `detach`: the provider poll behind the entry
status read, the outcomes of the first and second remote `detach` calls
(`false` = the call raised `EC2ResponseError`), the poll behind the
status re-read after the 240-second wait, and the result of the final
`wait_for_status(AVAILABLE, 60)`. -/
structure DetachEnv where
  statusAtEntry : VolumeStatus
  call1Ok : Bool
  statusAfterWait1 : VolumeStatus
  call2Ok : Bool
  wait2Ok : Bool

/-- `detach` (lines 592-622). Only acts when the entry status is ATTACHED
or IN_USE and a volume is bound, else returns False. Issues the remote
detach (False on error), waits up to 240 s for AVAILABLE discarding the
result, and if a volume is still bound and the status is not AVAILABLE,
retries the detach once (False on error) and returns False unless the
60-second wait succeeds; otherwise returns True. The local fields —
`self.device` included — are never modified. -/
def detach (s : VState) (env : DetachEnv) : List RemoteCall × Bool × VState :=
  if (status s env.statusAtEntry = VolumeStatus.ATTACHED ∨
      status s env.statusAtEntry = VolumeStatus.IN_USE) ∧ s.volume.isSome then
    if ¬ env.call1Ok then ([RemoteCall.detachVolume], false, s)
    else
      if s.volume.isSome ∧ status s env.statusAfterWait1 ≠ VolumeStatus.AVAILABLE then
        if ¬ env.call2Ok then
          ([RemoteCall.detachVolume, RemoteCall.detachVolume], false, s)
        else if ¬ env.wait2Ok then
          ([RemoteCall.detachVolume, RemoteCall.detachVolume], false, s)
        else ([RemoteCall.detachVolume, RemoteCall.detachVolume], true, s)
      else ([RemoteCall.detachVolume], true, s)
  else ([], false, s)

/-- `attempted_device[-3:-1]`: the two characters before the last one
(with Python's clamping on short strings). Used by the `'vd'` test at
line 587. -/
def devTail2 (dev : String) : String :=
  String.mk ((dev.data.drop (dev.data.length - 3)).dropLast)

/-- Per-candidate oracles for one iteration of the attach loop: the OS
device enumeration before the attach (`_get_device_list`), the outcome of
the remote attach call and the poll behind `_do_attach`'s trailing status
read, the result of `wait_for_status(ATTACHED)`, the OS device
enumeration after the settle delay, the poll behind the line-587 status
read, and the oracles of the speculative `self.detach()`. Device
enumerations are duplicate-free lists, see `resolveNewDevice`. -/
structure CandidateEnv where
  preDevices : List String
  call : AttachCallOutcome
  statusAfterCall : VolumeStatus
  waitAttachedOk : Bool
  postDevices : List String
  statusAfterFailedWait : VolumeStatus
  detachEnv : DetachEnv

/-- Lines 586-589, reached when a candidate produced no usable device:
if the status is not AVAILABLE and the candidate is not a `/dev/?vd?`
style path (`attempted_device[-3:-1] != 'vd'`), speculatively detach (the
remote side may have attached invisibly); the trailing
`wait_for_status(AVAILABLE, 60)` result is discarded. -/
def speculativeDetach (s : VState) (dev : String) (env : CandidateEnv) : VState :=
  if status s env.statusAfterFailedWait ≠ VolumeStatus.AVAILABLE ∧ devTail2 dev ≠ "vd" then
    (detach s env.detachEnv).2.2
  else s

/-- The `for attempted_device in self._get_likely_next_devices()` loop of
`attach` (lines 557-590). For each candidate: record the pre-attach
device set, run `_do_attach` (a falsy result moves to the next
candidate), wait for ATTACHED, and on success resolve the new-device set
(`resolveNewDevice`): an accepted device is stored in `self.device` and
returned, an ambiguous set aborts the whole attach (`return None`), an
empty set — like a failed wait — falls through to the speculative detach
and the next candidate. An exhausted candidate list returns `None`
(line 590). -/
def attachLoop (s : VState) : List (String × CandidateEnv) → VState × Option String
  | [] => (s, none)
  | (dev, env) :: rest =>
    match doAttach s (some dev) env.call env.statusAfterCall with
    | (s1, none) => attachLoop s1 rest
    | (s1, some _) =>
      if env.waitAttachedOk then
        match resolveNewDevice dev env.preDevices env.postDevices with
        | Resolution.accept d => ({ s1 with device := some d }, some d)
        | Resolution.abortAmbiguous => (s1, none)
        | Resolution.tryNext => attachLoop (speculativeDetach s1 dev env) rest
      else attachLoop (speculativeDetach s1 dev env) rest

/-- Oracles for `attach`: the poll behind the pre-loop status reads
(lines 533-554, all within the status cache's throttle window), the
result of the pre-loop `wait_for_status(AVAILABLE, ...)`, and the
candidate devices produced by `_get_likely_next_devices()` paired with
their per-candidate oracles (the `None` return of that helper, which
would raise `TypeError` at the `for` statement, is outside every claim
and not modelled). -/
structure AttachEnv where
  statusAtEntry : VolumeStatus
  waitAvailableOk : Bool
  candidates : List (String × CandidateEnv)

/-- `attach` (lines 524-590). A NONE or DELETING status fails at once; an
ATTACHED or IN_USE status is an idempotent no-op returning the current
device. A snapshot-sourced volume still CREATING waits for AVAILABLE
without timeout and proceeds even on failure (the error is only logged);
any other non-AVAILABLE status waits with a timeout and returns `None`
when the wait fails. Then the candidate loop runs. -/
def attach (s : VState) (env : AttachEnv) : VState × Option String :=
  if status s env.statusAtEntry = VolumeStatus.NONE ∨
     status s env.statusAtEntry = VolumeStatus.DELETING then (s, none)
  else if status s env.statusAtEntry = VolumeStatus.ATTACHED ∨
          status s env.statusAtEntry = VolumeStatus.IN_USE then (s, s.device)
  else if s.fromSnapshotId.isSome ∧ status s env.statusAtEntry = VolumeStatus.CREATING then
    attachLoop s env.candidates
  else if status s env.statusAtEntry ≠ VolumeStatus.AVAILABLE then
    if ¬ env.waitAvailableOk then (s, none)
    else attachLoop s env.candidates
  else attachLoop s env.candidates

/-- Oracles for `mount`: the per-iteration status poll, whether the
`subprocess` block raised (caught: `return False`), the first
`/bin/mount` exit status, the `mkfs.xfs` and post-format mount outcomes,
whether the Galaxy home directory already exists (archive short-circuit),
and the filesystem state the external `nfs_share_and_set_state()`
callback leaves behind. -/
structure MountEnv where
  statusAt : Nat → VolumeStatus
  mountRaises : Bool
  mountRet0 : Bool
  mkfsOk : Bool
  mount2Ok : Bool
  galaxyHomeExists : Bool
  stateAfterShare : FsState

/-- The tail of a successful mount iteration (lines 790-834): the chown /
required-subdirectory block only touches the OS (its `OSError` is caught
and logged); then an archive-sourced volume either short-circuits when
`self.fs.name == 'galaxy'` and the Galaxy home exists (sharing callback
runs at once) or marks the filesystem CONFIGURING and extracts
asynchronously (the completion callback has not run when `mount`
returns); a non-archive volume runs the sharing callback at once. -/
def mountTail (s : VState) (env : MountEnv) : Option Bool × VState :=
  if s.fromArchive then
    if s.fsName = "galaxy" ∧ env.galaxyHomeExists then
      (some true, { s with fsState := env.stateAfterShare })
    else (some true, { s with fsState := FsState.CONFIGURING })
  else (some true, { s with fsState := env.stateAfterShare })

/-- The `for counter in range(30)` loop of `mount` (lines 726-838). An
iteration with status ATTACHED runs the mount attempt: the mount-point
directory handling, the 10×4 s device-appearance wait and the
snapshot-growth branch only log or touch the OS; a raising subprocess
block returns False; a failing `/bin/mount` triggers `mkfs.xfs` and a
retry whose failure returns False (a failing `mkfs` falls through with
nothing mounted — faithful to the source); then `mountTail`. A
non-ATTACHED status sleeps 2 s and retries; 30 exhausted iterations fall
off the function (Python returns `None`). -/
def mountLoop (s : VState) (env : MountEnv) : Nat → Nat → Option Bool × VState
  | 0, _ => (none, s)
  | fuel + 1, counter =>
    if status s (env.statusAt counter) = VolumeStatus.ATTACHED then
      if env.mountRaises then (some false, s)
      else if ¬ env.mountRet0 then
        if env.mkfsOk then
          if ¬ env.mount2Ok then (some false, s)
          else mountTail s env
        else mountTail s env
      else mountTail s env
    else mountLoop s env fuel (counter + 1)

/-- `mount` (lines 720-838): the 30-iteration loop. -/
def mount (s : VState) (env : MountEnv) : Option Bool × VState :=
  mountLoop s env 30 0

/-- Oracles for `unmount`: the filesystem state observed after
`remove_nfs_share()` / `fs.status()` (external collaborator calls), the
`fs._is_mounted(mount_point)` answer, and per-iteration outcomes of
`/bin/umount` and of the cleanup block (`False` = its `OSError` path). -/
structure UnmountEnv where
  fsStateAfterStatus : FsState
  isMounted : Bool
  umountOkAt : Nat → Bool
  cleanupOkAt : Nat → Bool

/-- The `for counter in range(10)` loop of `unmount` (lines 850-872): a
successful umount whose cleanup also succeeds breaks out (then `return
True`); otherwise `counter == 9` returns False, else sleep 3 s and retry.
(The `counter += 1` in the body is overwritten by the `for` statement and
has no effect.) -/
def umountLoop (env : UnmountEnv) : Nat → Nat → Bool
  | 0, _ => true
  | fuel + 1, counter =>
    if env.umountOkAt counter ∧ env.cleanupOkAt counter then true
    else if counter = 9 then false
    else umountLoop env fuel (counter + 1)

/-- `unmount` (lines 840-879). Removes the NFS share and refreshes the
filesystem state (external calls; their net effect on `fs.state` is the
oracle `fsStateAfterStatus`); a state other than RUNNING or SHUTTING_DOWN
is "nothing to unmount" returning False; an unmounted path returns False;
otherwise the retry loop runs. -/
def unmount (s : VState) (env : UnmountEnv) : Bool × VState :=
  let s1 := { s with fsState := env.fsStateAfterStatus }
  if s1.fsState = FsState.RUNNING ∨ s1.fsState = FsState.SHUTTING_DOWN then
    if env.isMounted then (umountLoop env 10 0, s1)
    else (false, s1)
  else (false, s1)

/-- Oracles for `remove`: those of the unmount, those of the detach, and
the remote `delete_volume` response. -/
structure RemoveEnv where
  unmountEnv : UnmountEnv
  detachEnv : DetachEnv
  deleteResp : Bool

/-- `remove` (lines 687-718). Unmounts unconditionally; when `detach` is
requested and `self.detach()` succeeds, deletes the volume when
`(self.static and GALAXY_DATA not in self.fs.svc_roles) or delete_vols`;
with `detach` not requested nothing further happens. The call trace and
the possible `AttributeError` escaping from `delete` are surfaced. -/
def remove (s : VState) (delete_vols detach_requested : Bool) (env : RemoveEnv) :
    List RemoteCall × VState × Except PyError Unit :=
  let s1 := (unmount s env.unmountEnv).2
  if detach_requested then
    let r := detach s1 env.detachEnv
    if r.2.1 then
      if (r.2.2.static ∧ r.2.2.hasGalaxyDataRole = false) ∨ delete_vols then
        let d := delete r.2.2 env.deleteResp
        (r.1 ++ d.1, d.2.1, d.2.2.map fun _ => ())
      else (r.1, r.2.2, Except.ok ())
    else (r.1, r.2.2, Except.ok ())
  else ([], s1, Except.ok ())

/-- Oracles for the constructor: those of the `create` it may trigger and
the `derived_snapshots()` remote listing. -/
structure InitEnv where
  createEnv : CreateEnv
  derivedSnapshots : List String

/-- `__init__` (lines 40-69) for a construction without a pre-existing
volume ID (`vol_id=None` — the claim's scope; the `vol_id` branch calls
`update` instead and is not modelled here). The `device` argument is
stored at line 47 and unconditionally overwritten with `None` at line 52;
`attach_device` is accepted and never used; a snapshot- or
archive-sourced volume triggers `create()` immediately; finally the
derived-snapshot cache is populated from the remote listing. -/
def init (fsName : String) (hasGalaxyDataRole : Bool) (fsState : FsState)
    (device : Option String) (attach_device : Option String) (size : Nat)
    (from_snapshot_id : Option String) (static : Bool) (from_archive : Bool)
    (env : InitEnv) : VState :=
  let s : VState :=
    { volume := none, device := device, size := size,
      fromSnapshotId := from_snapshot_id, fromArchive := from_archive,
      static := static, snapshot := none, fsState := fsState,
      fsName := fsName, hasGalaxyDataRole := hasGalaxyDataRole,
      derivedSnapshots := [] }
  let s := { s with device := none }
  let s :=
    if from_snapshot_id.isSome ∨ from_archive then (create s env.createEnv).2.2
    else s
  { s with derivedSnapshots := env.derivedSnapshots }

end Volume

/-! ## Concrete states and environments used by the theorems -/

/-- A freshly constructed blank volume of size 1 GiB with no bound remote
resource. -/
def freshState : VState :=
  { volume := none, device := none, size := 1, fromSnapshotId := none,
    fromArchive := false, static := false, snapshot := none,
    fsState := FsState.UNSTARTED, fsName := "data",
    hasGalaxyDataRole := false, derivedSnapshots := [] }

/-- A volume bound to remote resource `vol-1`, not attached. -/
def boundState : VState := { freshState with volume := some "vol-1" }

/-! ## Helper lemmas about the embedded methods -/

lemma detach_state_eq (s : VState) (env : Volume.DetachEnv) :
    (Volume.detach s env).2.2 = s := by
  unfold Volume.detach
  split_ifs <;> rfl

lemma detach_no_delete_call (s : VState) (env : Volume.DetachEnv) (b : Bool) :
    RemoteCall.deleteVolume b ∉ (Volume.detach s env).1 := by
  unfold Volume.detach
  split_ifs <;> simp

lemma unmount_state_eq (s : VState) (env : Volume.UnmountEnv) :
    (Volume.unmount s env).2 = { s with fsState := env.fsStateAfterStatus } := by
  simp only [Volume.unmount]
  split_ifs <;> rfl

lemma delete_call_iff (s : VState) (resp : Bool) :
    RemoteCall.deleteVolume true ∈ (Volume.delete s resp).1 ↔
      (s.volume.isSome = true ∧ resp = true) := by
  unfold Volume.delete
  cases s.volume <;> cases resp <;> simp

lemma createSnapshotStep_some (s : VState) (env : Volume.CreateEnv) (c : List RemoteCall)
    (s1 : VState) (h : Volume.createSnapshotStep s env = (c, some s1)) :
    s1.device = s.device ∧ s1.volume = s.volume := by
  unfold Volume.createSnapshotStep at h
  repeat' split at h
  · simp_all
  · dsimp only at h
    split_ifs at h <;>
      (rw [Prod.mk.injEq, Option.some.injEq] at h
       obtain ⟨h1, h2⟩ := h
       subst h2
       simp)
  · simp_all

lemma create_preserves_device (s : VState) (env : Volume.CreateEnv) :
    ((Volume.create s env).2.2).device = s.device := by
  unfold Volume.create
  split
  · rfl
  · rcases h : Volume.createSnapshotStep s env with ⟨c, s1opt⟩
    rcases s1opt with _ | s1
    · simp [h]
    · have hd := (createSnapshotStep_some s env c s1 h).1
      dsimp only
      cases env.createResp <;> split_ifs <;> simp_all

lemma char_le_iff_toNat (a b : Char) : a ≤ b ↔ a.toNat ≤ b.toNat := by
  rw [Char.le_def]; exact ge_iff_le

lemma char_lt_iff_toNat (a b : Char) : a < b ↔ a.toNat < b.toNat := by
  rw [Char.lt_def]; exact Iff.rfl

lemma char_ofNat_toNat (m : Nat) (h : m < 55296) : (Char.ofNat m).toNat = m := by
  rw [Char.ofNat, dif_pos (Or.inl h)]
  simp [Char.ofNatAux, Char.toNat, UInt32.toNat, BitVec.toNat_ofNatLt]

/-! ## Claim theorems -/

/-- C8: the EC2 device-letter increment satisfies the three quoted
examples; every path with trailing letter is normalized (`/dev/xvd` base
replaced by `/dev/sd`) before incrementing, producing the floored and
advanced trailing letter `nextLetterEc2`; and for any trailing letter up
to `'z'` the resulting letter is never below `'f'`. -/
theorem C8_increment_device_letter :
    Volume.incrementDeviceId "ec2" "/dev/sdf" = some "/dev/sdg" ∧
    Volume.incrementDeviceId "ec2" "/dev/xvdb" = some "/dev/sdf" ∧
    Volume.incrementDeviceId "ec2" "/dev/xvdg" = some "/dev/sdh" ∧
    (∀ (l : List Char) (c : Char),
       Volume.incrementDeviceId "ec2" (String.mk (l ++ [c]))
         = some (String.mk
             ((if l = "/dev/xvd".data then "/dev/sd".data else l)
               ++ [Volume.nextLetterEc2 c]))) ∧
    (∀ c : Char, c ≤ 'z' → ('f' : Char) ≤ Volume.nextLetterEc2 c) := by
  refine ⟨by decide, by decide, by decide, ?_, ?_⟩
  · intro l c
    unfold Volume.incrementDeviceId Volume.nextLetterEc2
    simp only [List.getLast?_concat, List.dropLast_concat]
    rfl
  · intro c hcz
    unfold Volume.nextLetterEc2
    by_cases hc : c < 'f'
    · rw [if_pos hc]
      decide
    · rw [if_neg hc]
      rw [char_lt_iff_toNat] at hc
      rw [char_le_iff_toNat] at hcz
      have hf : ('f' : Char).toNat = 102 := by decide
      have hz : ('z' : Char).toNat = 122 := by decide
      rw [hf] at hc
      rw [hz] at hcz
      rw [char_le_iff_toNat, hf, char_ofNat_toNat (c.toNat + 1) (by omega)]
      omega

/-- C8, witness: incrementing a trailing `'g'` stays at or above `'f'`. -/
theorem C8_increment_device_letter_witness :
    ('g' : Char) ≤ 'z' ∧ ('f' : Char) ≤ Volume.nextLetterEc2 'g' :=
  ⟨by decide, C8_increment_device_letter.2.2.2.2 'g' (by decide)⟩

lemma waitLoop_guard_iff (t : ℤ) (ht : 0 < t) (k : Nat) :
    ((k : ℤ) * t ≤ 10 * t) ↔ (k ≤ 10) := by
  rw [mul_le_mul_right ht]
  norm_cast

lemma waitLoop_runs_out (t : ℤ) (ht : 0 < t) (env : Volume.WaitEnv)
    (target : VolumeStatus)
    (h : ∀ j, j ≤ 10 → env.statusAt j ≠ target ∧ env.hasVolumeAt j = true) :
    ∀ (fuel k : Nat), k ≤ 11 → 12 - k ≤ fuel →
      Volume.waitLoop target env false t fuel k = some (false, 11) := by
  intro fuel
  induction fuel with
  | zero => intro k hk hf; omega
  | succ n ih =>
    intro k hk hf
    rcases Nat.lt_or_ge k 11 with hlt | hge
    · have hk10 : k ≤ 10 := by omega
      have hguard : (false = true) ∨ ((k : ℤ) * t ≤ 10 * t) :=
        Or.inr ((waitLoop_guard_iff t ht k).mpr hk10)
      rw [Volume.waitLoop, if_pos hguard, if_neg (h k hk10).1,
        if_neg (by simp [(h k hk10).2])]
      exact ih (k + 1) (by omega) (by omega)
    · have hk11 : k = 11 := by omega
      subst hk11
      rw [Volume.waitLoop, if_neg]
      rintro (hb | hg)
      · exact Bool.false_ne_true hb
      · have := (waitLoop_guard_iff t ht 11).mp hg
        omega

lemma waitLoop_hits (t : ℤ) (ht : 0 < t) (env : Volume.WaitEnv)
    (target : VolumeStatus) (m : Nat) (hm : m ≤ 10)
    (hpre : ∀ j, j < m → env.statusAt j ≠ target ∧ env.hasVolumeAt j = true)
    (hhit : env.statusAt m = target) :
    ∀ (fuel k : Nat), k ≤ m → m + 1 - k ≤ fuel →
      Volume.waitLoop target env false t fuel k = some (true, m + 1) := by
  intro fuel
  induction fuel with
  | zero => intro k hk hf; omega
  | succ n ih =>
    intro k hk hf
    have hguard : (false = true) ∨ ((k : ℤ) * t ≤ 10 * t) :=
      Or.inr ((waitLoop_guard_iff t ht k).mpr (by omega))
    rcases Nat.lt_or_ge k m with hlt | hge
    · rw [Volume.waitLoop, if_pos hguard, if_neg (hpre k hlt).1,
        if_neg (by simp [(hpre k hlt).2])]
      exact ih (k + 1) (by omega) (by omega)
    · have hkm : k = m := by omega
      subst hkm
      rw [Volume.waitLoop, if_pos hguard, if_pos hhit]

lemma waitLoop_forever_sound (t : ℤ) (env : Volume.WaitEnv)
    (target : VolumeStatus) :
    ∀ (fuel k : Nat) (b : Bool) (n : Nat),
      Volume.waitLoop target env true t fuel k = some (b, n) →
      ∃ j, n = j + 1 ∧
        ((b = true ∧ env.statusAt j = target) ∨
         (b = false ∧ env.hasVolumeAt j = false)) := by
  intro fuel
  induction fuel with
  | zero =>
    intro k b n hres
    rw [Volume.waitLoop] at hres
    cases hres
  | succ fuelN ih =>
    intro k b n hres
    rw [Volume.waitLoop, if_pos (Or.inl rfl)] at hres
    by_cases h1 : env.statusAt k = target
    · rw [if_pos h1] at hres
      simp only [Option.some.injEq, Prod.mk.injEq] at hres
      obtain ⟨rfl, rfl⟩ := hres
      exact ⟨k, rfl, Or.inl ⟨rfl, h1⟩⟩
    · rw [if_neg h1] at hres
      by_cases h2 : env.hasVolumeAt k = false
      · rw [if_pos h2] at hres
        simp only [Option.some.injEq, Prod.mk.injEq] at hres
        obtain ⟨rfl, rfl⟩ := hres
        exact ⟨k, rfl, Or.inr ⟨rfl, h2⟩⟩
      · rw [if_neg h2] at hres
        exact ih (k + 1) b n hres

/-- Polling environment whose checks never observe the target and always
see a bound volume ID. -/
def steadyCreating : Volume.WaitEnv :=
  { statusAt := fun _ => VolumeStatus.CREATING, hasVolumeAt := fun _ => true }

/-- Polling environment that observes AVAILABLE at the fourth check
(index 3) and CREATING before. -/
def availableAtThree : Volume.WaitEnv :=
  { statusAt := fun k => if k = 3 then VolumeStatus.AVAILABLE
                         else VolumeStatus.CREATING,
    hasVolumeAt := fun _ => true }

/-- C1, counterexample: with `timeout = 10` and a volume that never
reaches the target, `wait_for_status` performs 11 status checks, not 10
(the loop guard `time.time() <= end_time` admits the check at elapsed
time exactly `timeout`; the `checks` counter is never consulted); and
with `timeout = 0` — a finite non-negative timeout — the loop guard
`0 ≤ 0` never goes false, so the call does not return after any finite
number of checks in the sleep-advances-time model. -/
theorem C1_counterexample :
    Volume.wait_for_status steadyCreating VolumeStatus.CREATING
        VolumeStatus.AVAILABLE 10 12 = some (false, 11) ∧
    Volume.wait_for_status steadyCreating VolumeStatus.CREATING
        VolumeStatus.AVAILABLE 0 50 = none :=
  ⟨by decide, by decide⟩

/-- C1, amended: for every finite positive timeout `t` the loop performs
exactly 11 status checks spaced `t/10` apart (at elapsed times `0, t/10,
…, t` inclusive) and returns false when the target was never observed; it
returns true at the (m+1)-st check as soon as check `m` observes the
target; and with `timeout = -1` (5-second poll spacing) a non-NONE start
never returns before a check observes the target (result true) or the
volume ID disappears (result false). -/
theorem C1_amended :
    (∀ (t : ℤ), 0 < t → ∀ (env : Volume.WaitEnv) (init target : VolumeStatus),
       init ≠ VolumeStatus.NONE →
       (∀ j, j ≤ 10 → env.statusAt j ≠ target ∧ env.hasVolumeAt j = true) →
       ∀ fuel, 12 ≤ fuel →
         Volume.wait_for_status env init target t fuel = some (false, 11)) ∧
    (∀ (t : ℤ), 0 < t →
       ∀ (env : Volume.WaitEnv) (init target : VolumeStatus) (m : Nat),
       init ≠ VolumeStatus.NONE → m ≤ 10 →
       (∀ j, j < m → env.statusAt j ≠ target ∧ env.hasVolumeAt j = true) →
       env.statusAt m = target →
       ∀ fuel, m + 1 ≤ fuel →
         Volume.wait_for_status env init target t fuel = some (true, m + 1)) ∧
    (∀ (env : Volume.WaitEnv) (init target : VolumeStatus) (fuel : Nat)
       (b : Bool) (n : Nat),
       init ≠ VolumeStatus.NONE →
       Volume.wait_for_status env init target (-1) fuel = some (b, n) →
       ∃ j, n = j + 1 ∧
         ((b = true ∧ env.statusAt j = target) ∨
          (b = false ∧ env.hasVolumeAt j = false))) := by
  refine ⟨?_, ?_, ?_⟩
  · intro t ht env init target hinit h fuel hfuel
    unfold Volume.wait_for_status
    rw [if_neg hinit, if_neg (by omega)]
    exact waitLoop_runs_out t ht env target h fuel 0 (by omega) (by omega)
  · intro t ht env init target m hinit hm hpre hhit fuel hfuel
    unfold Volume.wait_for_status
    rw [if_neg hinit, if_neg (by omega)]
    exact waitLoop_hits t ht env target m hm hpre hhit fuel 0 (by omega) (by omega)
  · intro env init target fuel b n hinit hres
    unfold Volume.wait_for_status at hres
    rw [if_neg hinit, if_pos rfl] at hres
    exact waitLoop_forever_sound (-1) env target fuel 0 b n hres

/-- C1, witness: a volume that becomes AVAILABLE at the fourth check
makes `wait_for_status` with timeout 10 return true after 4 checks. -/
theorem C1_amended_witness :
    Volume.wait_for_status availableAtThree VolumeStatus.CREATING
        VolumeStatus.AVAILABLE 10 12 = some (true, 4) :=
  C1_amended.2.1 10 (by norm_num) availableAtThree VolumeStatus.CREATING
    VolumeStatus.AVAILABLE 3 (by decide) (by norm_num)
    (fun j hj => ⟨by
        have h3 : j ≠ 3 := by omega
        simp [availableAtThree, h3], rfl⟩)
    (by decide) 12 (by norm_num)

/-- C2, code bug: with a bound remote resource whose remote delete
succeeds, `delete()` issues the remote delete, clears `self.volume`, and
then raises `AttributeError` at `self.volume_id = None` (a getter-only
property) instead of returning True; with no bound resource it is a
no-op returning False as the claim says. -/
theorem C2_delete_raises_attribute_error :
    Volume.delete boundState true
      = ([RemoteCall.deleteVolume true], { boundState with volume := none },
         Except.error PyError.attributeError) ∧
    Volume.delete freshState true = ([], freshState, Except.ok false) :=
  ⟨rfl, rfl⟩

/-- C3, counterexample: with pre-attach devices `{}` and post-attach
devices `{/dev/sdf, /dev/sdg}` — two new devices — and requested
candidate `/dev/sdf`, the resolution accepts `/dev/sdf` (the
`elif attempted_device in new_devices` branch precedes the
`len(new_devices) > 1` check), and the attach loop assigns the device
and returns it, contradicting "more than one new device aborts the whole
attach with a failure and no device assigned". -/
theorem C3_counterexample :
    Volume.resolveNewDevice "/dev/sdf" [] ["/dev/sdf", "/dev/sdg"]
      = Volume.Resolution.accept "/dev/sdf" ∧
    (Volume.attachLoop boundState
        [("/dev/sdf",
          { preDevices := [], call := Volume.AttachCallOutcome.ok,
            statusAfterCall := VolumeStatus.ATTACHING, waitAttachedOk := true,
            postDevices := ["/dev/sdf", "/dev/sdg"],
            statusAfterFailedWait := VolumeStatus.ATTACHED,
            detachEnv := { statusAtEntry := VolumeStatus.ATTACHED, call1Ok := true,
                           statusAfterWait1 := VolumeStatus.AVAILABLE,
                           call2Ok := true, wait2Ok := true } })]).2
      = some "/dev/sdf" ∧
    (Volume.attachLoop boundState
        [("/dev/sdf",
          { preDevices := [], call := Volume.AttachCallOutcome.ok,
            statusAfterCall := VolumeStatus.ATTACHING, waitAttachedOk := true,
            postDevices := ["/dev/sdf", "/dev/sdg"],
            statusAfterFailedWait := VolumeStatus.ATTACHED,
            detachEnv := { statusAtEntry := VolumeStatus.ATTACHED, call1Ok := true,
                           statusAfterWait1 := VolumeStatus.AVAILABLE,
                           call2Ok := true, wait2Ok := true } })]).1.device
      = some "/dev/sdf" := by
  refine ⟨by decide, by decide, by decide⟩

/-- C3, amended: zero new devices tries the next candidate; exactly one
new device is accepted regardless of whether it matches the requested
candidate; more than one new device aborts the attach only when the
requested candidate is not among them — when it is, the requested
candidate is accepted. -/
theorem C3_amended (attempted : String) (pre post : List String) :
    ((post.filter (fun d => d ∉ pre)).length = 0 →
       Volume.resolveNewDevice attempted pre post = Volume.Resolution.tryNext) ∧
    ((post.filter (fun d => d ∉ pre)).length = 1 →
       ∃ d, post.filter (fun d => d ∉ pre) = [d] ∧
         Volume.resolveNewDevice attempted pre post = Volume.Resolution.accept d) ∧
    (1 < (post.filter (fun d => d ∉ pre)).length →
       (attempted ∈ post.filter (fun d => d ∉ pre) →
          Volume.resolveNewDevice attempted pre post
            = Volume.Resolution.accept attempted) ∧
       (attempted ∉ post.filter (fun d => d ∉ pre) →
          Volume.resolveNewDevice attempted pre post
            = Volume.Resolution.abortAmbiguous)) := by
  refine ⟨?_, ?_, ?_⟩
  · intro h0
    unfold Volume.resolveNewDevice
    rw [if_pos h0]
  · intro h1
    obtain ⟨d, hd⟩ := List.length_eq_one.mp h1
    refine ⟨d, hd, ?_⟩
    unfold Volume.resolveNewDevice
    rw [hd]
    rw [if_neg (by simp)]
    by_cases hm : attempted ∈ [d]
    · rcases List.mem_singleton.mp hm with rfl
      rw [if_pos hm]
    · rw [if_neg hm, if_neg (by simp), List.headI]
  · intro hgt
    have hne : ¬ (post.filter (fun d => d ∉ pre)).length = 0 := by omega
    constructor
    · intro hm
      unfold Volume.resolveNewDevice
      rw [if_neg hne, if_pos hm]
    · intro hm
      unfold Volume.resolveNewDevice
      rw [if_neg hne, if_neg hm, if_pos hgt]

/-- C3, witness: a single new device that differs from the requested
candidate (`/dev/sdg` requested, `/dev/sdf` appeared) is accepted. -/
theorem C3_amended_witness :
    ∃ d, ["/dev/sda", "/dev/sdf"].filter (fun x => x ∉ ["/dev/sda"]) = [d] ∧
      Volume.resolveNewDevice "/dev/sdg" ["/dev/sda"] ["/dev/sda", "/dev/sdf"]
        = Volume.Resolution.accept d :=
  (C3_amended "/dev/sdg" ["/dev/sda"] ["/dev/sda", "/dev/sdf"]).2.1 (by decide)

/-- C6: a remote attach failure with error code
`InvalidVolume.ZoneMismatch` drives the owning filesystem's state to
ERROR and makes `_do_attach` return the falsy `False`; no exception
escapes, since the zone-mismatch error is an `EC2ResponseError` and
`_do_attach` catches that class. -/
theorem C6_zone_mismatch_sets_error (s : VState) (d : String) (poll : VolumeStatus) :
    Volume.doAttach s (some d)
        (Volume.AttachCallOutcome.err "InvalidVolume.ZoneMismatch") poll
      = ({ s with fsState := FsState.ERROR }, none) := by
  simp [Volume.doAttach]

/-- C10: when one candidate device fails with a zone mismatch (which
sets the owning filesystem to ERROR), the attach loop does not abort: the
zone-mismatch failure is the same falsy `False` as any other per-candidate
attach failure, so the loop continues with the remaining candidates. -/
theorem C10_zone_mismatch_tries_next (s : VState) (dev : String)
    (pre : List String) (poll : VolumeStatus) (wOk : Bool) (post : List String)
    (poll2 : VolumeStatus) (denv : Volume.DetachEnv)
    (rest : List (String × Volume.CandidateEnv)) :
    Volume.attachLoop s ((dev,
        { preDevices := pre,
          call := Volume.AttachCallOutcome.err "InvalidVolume.ZoneMismatch",
          statusAfterCall := poll, waitAttachedOk := wOk, postDevices := post,
          statusAfterFailedWait := poll2, detachEnv := denv }) :: rest)
      = Volume.attachLoop { s with fsState := FsState.ERROR } rest := by
  simp [Volume.attachLoop, Volume.doAttach]

/-- Detach oracles for a clean detach: ATTACHED at entry, a successful
remote call, and AVAILABLE observed after the first wait. -/
def rtDetachEnv : Volume.DetachEnv :=
  { statusAtEntry := VolumeStatus.ATTACHED, call1Ok := true,
    statusAfterWait1 := VolumeStatus.AVAILABLE, call2Ok := true,
    wait2Ok := true }

/-- Create oracles: the remote create returns volume `vol-0001` of
size 1. -/
def rtCreateEnv : Volume.CreateEnv :=
  { snapResp := none, snapInfoSize := none, statusPoll := VolumeStatus.NONE,
    createResp := some ("vol-0001", some 1) }

/-- Candidate oracles for a clean attach of `/dev/sdf`: one new OS device
appears and it is the requested one. -/
def rtCandidate : Volume.CandidateEnv :=
  { preDevices := ["/dev/sda"], call := Volume.AttachCallOutcome.ok,
    statusAfterCall := VolumeStatus.ATTACHING, waitAttachedOk := true,
    postDevices := ["/dev/sda", "/dev/sdf"],
    statusAfterFailedWait := VolumeStatus.ATTACHED, detachEnv := rtDetachEnv }

/-- Attach oracles: AVAILABLE at entry, one candidate `/dev/sdf`. -/
def rtAttachEnv : Volume.AttachEnv :=
  { statusAtEntry := VolumeStatus.AVAILABLE, waitAvailableOk := true,
    candidates := [("/dev/sdf", rtCandidate)] }

/-- Mount oracles: ATTACHED polls, first `/bin/mount` succeeds, sharing
callback leaves the filesystem RUNNING. -/
def rtMountEnv : Volume.MountEnv :=
  { statusAt := fun _ => VolumeStatus.ATTACHED, mountRaises := false,
    mountRet0 := true, mkfsOk := true, mount2Ok := true,
    galaxyHomeExists := false, stateAfterShare := FsState.RUNNING }

/-- Unmount oracles: filesystem RUNNING, mounted, first umount and
cleanup succeed. -/
def rtUnmountEnv : Volume.UnmountEnv :=
  { fsStateAfterStatus := FsState.RUNNING, isMounted := true,
    umountOkAt := fun _ => true, cleanupOkAt := fun _ => true }

/-- State after `create()` on a fresh 1-GiB blank volume. -/
def rtS1 : VState := (Volume.create freshState rtCreateEnv).2.2

/-- State after the subsequent `attach()`. -/
def rtS2 : VState := (Volume.attach rtS1 rtAttachEnv).1

/-- State after the subsequent `mount()`. -/
def rtS3 : VState := (Volume.mount rtS2 rtMountEnv).2

/-- State after the subsequent `unmount()`. -/
def rtS4 : VState := (Volume.unmount rtS3 rtUnmountEnv).2

/-- State after the final `detach()`. -/
def rtS5 : VState := (Volume.detach rtS4 rtDetachEnv).2.2

/-- C4, counterexample: a fully successful `create → attach → mount →
unmount → detach` round trip ends with status AVAILABLE but with the
`device` field still holding `/dev/sdf` — not null — because `detach`
never clears `self.device`. This breaks the claimed invariant (`device`
non-null only in ATTACHED/IN_USE) and the claimed null-device
postcondition of the round trip. -/
theorem C4_counterexample :
    (Volume.create freshState rtCreateEnv).2.1 = true ∧
    (Volume.attach rtS1 rtAttachEnv).2 = some "/dev/sdf" ∧
    (Volume.mount rtS2 rtMountEnv).1 = some true ∧
    (Volume.unmount rtS3 rtUnmountEnv).1 = true ∧
    (Volume.detach rtS4 rtDetachEnv).2.1 = true ∧
    Volume.status rtS5 VolumeStatus.AVAILABLE = VolumeStatus.AVAILABLE ∧
    rtS5.device = some "/dev/sdf" :=
  ⟨by decide, by decide, by decide, by decide, by decide, by decide, by decide⟩

/-- C4, amended: `detach` never modifies the `device` field (for every
state and every detach environment), so the successful round trip leaves
the status at AVAILABLE while `device` still holds the attached path
`/dev/sdf`; the claimed invariant fails after `detach`. -/
theorem C4_amended :
    (∀ (s : VState) (env : Volume.DetachEnv),
       ((Volume.detach s env).2.2).device = s.device) ∧
    ((Volume.detach rtS4 rtDetachEnv).2.1 = true ∧
     Volume.status rtS5 VolumeStatus.AVAILABLE = VolumeStatus.AVAILABLE ∧
     rtS5.device = some "/dev/sdf") := by
  refine ⟨?_, by decide, by decide, by decide⟩
  intro s env
  rw [detach_state_eq]

/-- Detach oracles that find the volume already AVAILABLE (not attached)
at entry, so `detach()` returns False. -/
def c5DetachEnv : Volume.DetachEnv :=
  { rtDetachEnv with statusAtEntry := VolumeStatus.AVAILABLE }

/-- Remove oracles built from the above, with a succeeding remote
delete. -/
def c5RemoveEnv : Volume.RemoveEnv :=
  { unmountEnv := rtUnmountEnv, detachEnv := c5DetachEnv, deleteResp := true }

/-- C5, counterexample: `remove(mount_point, delete_vols=True,
detach=True)` on a bound but not-attached volume (`static=False`) issues
no remote call at all — in particular no delete — because the delete is
guarded by `self.detach()` succeeding, and `detach()` returns False for a
volume that is not ATTACHED/IN_USE. The claim's "deleted exactly when …
delete_vols is set" predicts a deletion here. -/
theorem C5_counterexample :
    (Volume.remove boundState true true c5RemoveEnv).1 = [] ∧
    boundState.static = false ∧
    (Volume.remove boundState true true c5RemoveEnv).2.1.volume = some "vol-1" :=
  ⟨by decide, by decide, by decide⟩

/-- C5, amended: with `detach=True`, the remote delete is issued and
succeeds exactly when the `detach()` step succeeds, the policy condition
`(static and not primary-data-role) or delete_vols` holds, a remote
volume is bound, and the remote delete responds with success; in
particular `delete_vols=True` still deletes a non-static volume, but only
when the detach succeeded. -/
theorem C5_amended (s : VState) (delete_vols : Bool) (env : Volume.RemoveEnv) :
    RemoteCall.deleteVolume true ∈ (Volume.remove s delete_vols true env).1 ↔
      ((Volume.detach ((Volume.unmount s env.unmountEnv).2) env.detachEnv).2.1
          = true ∧
       ((s.static = true ∧ s.hasGalaxyDataRole = false) ∨ delete_vols = true) ∧
       s.volume.isSome = true ∧ env.deleteResp = true) := by
  have hun := unmount_state_eq s env.unmountEnv
  have hdc := detach_no_delete_call ((Volume.unmount s env.unmountEnv).2)
    env.detachEnv true
  have hst := detach_state_eq ((Volume.unmount s env.unmountEnv).2) env.detachEnv
  unfold Volume.remove
  dsimp only
  rw [if_pos rfl]
  rcases hr : Volume.detach ((Volume.unmount s env.unmountEnv).2) env.detachEnv
    with ⟨dc, ok, s2⟩
  rw [hr] at hdc hst
  dsimp only at hst ⊢
  cases ok
  · rw [if_neg (by simp)]
    exact iff_of_false hdc (by simp)
  · rw [if_pos rfl]
    have hs2s : s2.static = s.static := by rw [hst, hun]
    have hs2g : s2.hasGalaxyDataRole = s.hasGalaxyDataRole := by rw [hst, hun]
    have hs2v : s2.volume = s.volume := by rw [hst, hun]
    by_cases hp : (s2.static = true ∧ s2.hasGalaxyDataRole = false) ∨
        delete_vols = true
    · rw [if_pos hp]
      dsimp only
      rw [List.mem_append]
      rw [delete_call_iff s2 env.deleteResp]
      constructor
      · rintro (hmem | ⟨hv, hresp⟩)
        · exact absurd hmem hdc
        · rw [hs2v] at hv
          refine ⟨rfl, ?_, hv, hresp⟩
          rcases hp with ⟨h1, h2⟩ | h3
          · exact Or.inl ⟨by rw [← hs2s]; exact h1, by rw [← hs2g]; exact h2⟩
          · exact Or.inr h3
      · rintro ⟨-, -, hv, hresp⟩
        exact Or.inr ⟨by rw [hs2v]; exact hv, hresp⟩
    · rw [if_neg hp]
      refine iff_of_false hdc ?_
      rintro ⟨-, hcond, -, -⟩
      apply hp
      rcases hcond with ⟨h1, h2⟩ | h3
      · exact Or.inl ⟨by rw [hs2s]; exact h1, by rw [hs2g]; exact h2⟩
      · exact Or.inr h3

/-- State with neither size nor snapshot nor archive set. -/
def emptyState : VState := { freshState with size := 0 }

/-- Create oracles whose status poll reports AVAILABLE (an already
provisioned volume). -/
def c7Env : Volume.CreateEnv :=
  { snapResp := none, snapInfoSize := none,
    statusPoll := VolumeStatus.AVAILABLE, createResp := none }

/-- C7: `create()` with size, snapshot ID and archive all unset fails
synchronously issuing no remote call and leaving the state untouched;
and `create()` when the status is not NONE fails without issuing a
remote `create_volume` call. -/
theorem C7_create_guards (s : VState) (env : Volume.CreateEnv) :
    (s.size = 0 ∧ s.fromSnapshotId = none ∧ s.fromArchive = false →
       Volume.create s env = ([], false, s)) ∧
    (Volume.status s env.statusPoll ≠ VolumeStatus.NONE →
       (Volume.create s env).2.1 = false ∧
       RemoteCall.createVolume ∉ (Volume.create s env).1) := by
  constructor
  · intro h
    unfold Volume.create
    rw [if_pos h]
  · intro hst
    have hvol : ¬ s.volume = none := by
      intro hv
      exact hst (by simp [Volume.status, hv])
    have hstep : Volume.createSnapshotStep s env = ([], some s) := by
      unfold Volume.createSnapshotStep
      rcases hsnap : s.fromSnapshotId with _ | snapId <;>
        rcases hvv : s.volume with _ | v <;> first | rfl | exact absurd hvv hvol
    unfold Volume.create
    split
    · exact ⟨rfl, by simp⟩
    · rw [hstep]
      dsimp only
      rw [if_neg hst]
      exact ⟨rfl, by simp⟩

/-- C7, witness: the guards fire on a sizeless sourceless volume and on
an already provisioned (AVAILABLE) volume. -/
theorem C7_create_guards_witness :
    Volume.create emptyState c7Env = ([], false, emptyState) ∧
    ((Volume.create boundState c7Env).2.1 = false ∧
     RemoteCall.createVolume ∉ (Volume.create boundState c7Env).1) :=
  ⟨(C7_create_guards emptyState c7Env).1 (by decide),
   (C7_create_guards boundState c7Env).2 (by decide)⟩

/-- C9: a Volume constructed without a pre-existing volume ID has a null
`device` field, whatever `device` argument was passed: line 52
unconditionally overwrites the field stored at line 47, and the `create`
triggered for snapshot- or archive-sourced volumes never touches the
device field. -/
theorem C9_device_none_after_init (fsName : String) (hasRole : Bool)
    (fsState : FsState) (device attach_device : Option String) (size : Nat)
    (from_snapshot_id : Option String) (static from_archive : Bool)
    (env : Volume.InitEnv) :
    (Volume.init fsName hasRole fsState device attach_device size
        from_snapshot_id static from_archive env).device = none := by
  unfold Volume.init
  dsimp only
  split
  · rw [create_preserves_device]
  · rfl

end CloudMan
